import Mathlib

/-!
Verification of the package-submission pipeline of `src/api/app/apps.js`
(openappstore-web).  The two submission handlers — `app.post` (create,
lines 321–373) and `app.put` (update, lines 375–415) — together with the
helpers `fileName` (259–270), `checkPackage` (272–294) and
`updateAndUpload` (296–319) are embedded as pure Lean functions.

The JavaScript promise chains are deterministic once the collaborator
results (review verdict, parse result, checksum, upload outcome) are
fixed, so each handler is modelled as a function from the request and an
environment of collaborator results to a triple of the HTTP response, the
trace of side effects (file unlink/rename, review/parse/checksum
invocations, remote artifact upload, registry save) and the final state
of the registry.  Collaborator modules that are not part of the sources
(`helpers.js`, `upload.js`, `utils/packages.js`, the db layer) are
modelled from the spec and marked as such in their doc comments.
-/

namespace OpenAppStore

/-- Model of the JavaScript builtin `String.prototype.endsWith` used by the
handlers on `req.file.originalname`: true when the suffix's characters are a
suffix of the string's characters. -/
def jsEndsWith (s suffix : String) : Bool :=
  suffix.data.isSuffixOf s.data

/-- An uploaded temporary file as the multipart middleware presents it
(`req.file`): the client-supplied original name and the server-side
temporary path (`multer({dest: '/tmp'})`). -/
structure UploadedFile where
  originalname : String
  path : String
  deriving Repr, DecidableEq

/-- The authenticated principal (`req.user`).  The `admin` and `trusted`
flags model `helpers.isAdminUser` / `helpers.isAdminOrTrustedUser`
(helpers.js is not among the sources; the spec describes the principal as
"an administrator or a trusted uploader"). -/
structure User where
  _id : String
  admin : Bool
  trusted : Bool
  deriving Repr, DecidableEq

/-- Modelled from the spec: `helpers.isAdminUser` (helpers.js is missing from
the sources) — whether the principal is an administrator. -/
def isAdminUser (u : User) : Bool := u.admin

/-- Modelled from the spec: `helpers.isAdminOrTrustedUser` (helpers.js is
missing from the sources) — "Admin & trusted users can upload apps without
manual review" (line 283). -/
def isAdminOrTrustedUser (u : User) : Bool := u.admin || u.trusted

/-- ManifestData produced by the Manifest Parser (`click-parser-async`).
JavaScript falsiness of a missing or empty field (`!parseData.name`,
line 302/340) is modelled by `none`. -/
structure ParseData where
  name : Option String
  version : Option String
  architecture : Option String
  icon : Option String
  deriving Repr, DecidableEq

/-- The durable PackageRecord (`db.Package`).  Only the fields the
submission pipeline itself reads or writes are carried; `none` models a
field not yet set (`new db.Package()` starts with every field unset). -/
structure Package where
  id : Option String
  maintainer : Option String
  version : Option String
  architecture : Option String
  download_sha512 : Option String
  icon : Option String
  deriving Repr, DecidableEq

/-- `new db.Package()` (line 352): a fresh record with no fields set. -/
def Package.new : Package :=
  { id := none, maintainer := none, version := none, architecture := none,
    download_sha512 := none, icon := none }

/-- An HTTP request as the handlers see it: the optional uploaded file,
the authenticated user, the `maintainer` form field of `req.body`, and the
`:id` route parameter (used by `app.put`). -/
structure Request where
  file : Option UploadedFile
  user : User
  bodyMaintainer : Option String
  paramsId : String
  deriving Repr, DecidableEq

/-- The collaborator results that determine one run of a handler:
the current registry contents, whether the review tool succeeds
(`reviewOk = false` models `reviewPackage` rejecting), its verdict
(`needsReview`), the Manifest Parser result (`none` models a parse
rejection), the checksum digest, and whether the remote artifact upload
succeeds. -/
structure Env where
  registry : List Package
  reviewOk : Bool
  needsReview : Bool
  parseResult : Option ParseData
  checksumVal : String
  uploadOk : Bool
  deriving Repr, DecidableEq

/-- Observable side effects of one handler run, in program order. -/
inductive Event where
  | unlink (p : String)
  | rename (src dst : String)
  | review (p : String)
  | parseFile (p : String)
  | checksumFile (p : String)
  | uploadArtifact (pkgId : Option String)
  | save (pkg : Package)
  deriving Repr, DecidableEq

/-- Whether an event is the registry persist (`pkg.save()`). -/
def Event.isSave : Event → Bool
  | .save _ => true
  | _ => false

/-- Whether an event is the remote artifact upload (`upload.uploadPackage`). -/
def Event.isUpload : Event → Bool
  | .uploadArtifact _ => true
  | _ => false

/-- Whether an event deletes a temporary file (`fs.unlink`). -/
def Event.isUnlink : Event → Bool
  | .unlink _ => true
  | _ => false

/-- Failures a pipeline stage can raise: one of the handler's own string
constants (thrown and compared with `==` in the catch blocks), a JavaScript
`TypeError` from dereferencing a `null` record, a rejection of the review
tool, of the Manifest Parser, or of the remote artifact upload. -/
inductive Err where
  | msg (s : String)
  | typeError
  | reviewToolError
  | parseError
  | storageError
  deriving Repr, DecidableEq

/-- Error message constants of apps.js, lines 26–32. -/
def NEEDS_MANUAL_REVIEW : String := "This app needs to be reviewed manually"

/-- "Your package manifest is malformed" (line 27). -/
def MALFORMED_MANIFEST : String := "Your package manifest is malformed"

/-- "A package with the same name already exists" (line 28). -/
def DUPLICATE_PACKAGE : String := "A package with the same name already exists"

/-- "You do not have permission to update this app" (line 29). -/
def PERMISSION_DENIED : String := "You do not have permission to update this app"

/-- "The file must be a click or snap package" (line 30). -/
def BAD_FILE : String := "The file must be a click or snap package"

/-- "The uploaded package does not match the name of the package you are
editing" (line 31). -/
def WRONG_PACKAGE : String := "The uploaded package does not match the name of the package you are editing"

/-- The HTTP response as produced by the helpers envelope
`{success, data?, message?}` plus the status code. -/
structure Response where
  status : Nat
  success : Bool
  message : Option String
  body : Option Package
  deriving Repr, DecidableEq

/-- Modelled from the spec: `helpers.error` (helpers.js is missing from the
sources) — sends `{success: false, message}` with the given status code.
apps.js sometimes passes no status; such a call site is modelled with the
status the spec assigns to that outcome: 400 for the listed validation
errors such as `InvalidFileKind` ("`400` with `{message: ...}` for ...
`InvalidFileKind`", spec §6; "reported with a 4xx-equivalent status",
spec §7), and the generic-failure status 500 for outcomes the spec does
not list ("`500` for unexpected failures", spec §6). -/
def helpersError (message : String) (code : Nat) : Response :=
  { status := code, success := false, message := some message, body := none }

/-- Modelled from the spec: `helpers.success` (helpers.js is missing from
the sources) — sends `{success: true, data}` with status 200. -/
def helpersSuccess (pkg : Package) : Response :=
  { status := 200, success := true, message := none, body := some pkg }

/-- `fileName` (lines 259–270): the temporary file renamed with the
recognized extension, "so click-review doesn't freak out". -/
def fileName (f : UploadedFile) : String :=
  if jsEndsWith f.originalname ".click" then f.path ++ ".click"
  else f.path ++ ".snap"

/-- `checkPackage` (lines 272–294): reject (and `fs.unlink`) a file whose
name ends in neither accepted extension; otherwise rename it, skip review
for admin or trusted users, else invoke `reviewPackage` and throw
`NEEDS_MANUAL_REVIEW` when it flags the package (retaining the file). -/
def checkPackage (f : UploadedFile) (u : User) (env : Env) :
    List Event × Except Err Unit :=
  if !(jsEndsWith f.originalname ".click") && !(jsEndsWith f.originalname ".snap") then
    ([.unlink f.path], .error (.msg BAD_FILE))
  else if isAdminOrTrustedUser u then
    ([.rename f.path (fileName f)], .ok ())
  else if !env.reviewOk then
    ([.rename f.path (fileName f), .review (fileName f)], .error .reviewToolError)
  else if env.needsReview then
    ([.rename f.path (fileName f), .review (fileName f)], .error (.msg NEEDS_MANUAL_REVIEW))
  else
    ([.rename f.path (fileName f), .review (fileName f)], .ok ())

/-- Modelled from the spec: `packages.updateInfo` (utils/packages.js is
missing from the sources) — "Construct a new PackageRecord; merge manifest
fields, requester-supplied form fields, and the computed checksum into it"
(spec §4.1 step 7).  The manifest fields are merged into the record; the
id is taken from the manifest name when the record has none (create) and
left unchanged otherwise; the maintainer form field fills an unset
maintainer.  It performs no store write.  With no parse data (metadata-only
edit) the modelled form fields leave the record unchanged. -/
def updateInfo (pkg : Package) (parseData : Option ParseData)
    (bodyMaintainer : Option String) : Package :=
  match parseData with
  | some d =>
      { pkg with
        id := if pkg.id = none then d.name else pkg.id,
        version := d.version,
        architecture := d.architecture,
        icon := d.icon,
        maintainer := if pkg.maintainer = none then bodyMaintainer else pkg.maintainer }
  | none => pkg

/-- The record as `updateAndUpload` has mutated it by the time of the
upload: `pkg.download_sha512 = results[2]` (line 299) followed by the
merge `packages.updateInfo(pkg, parseData, req.body, req.file)`
(line 310). -/
def mergedPackage (pkg0 : Package) (parseData : ParseData) (sha : String)
    (bodyMaintainer : Option String) : Package :=
  updateInfo { pkg0 with download_sha512 := some sha } (some parseData)
    bodyMaintainer

/-- `updateAndUpload` (lines 296–319): set `download_sha512` on the record
(line 299, before any check — an in-memory mutation that reaches the store
only through a later `save`), check the manifest fields
(`MALFORMED_MANIFEST`), check the manifest name against an existing record
id (`WRONG_PACKAGE`; the sha mutation does not touch `id`, so the check
reads `pkg0.id`), merge via `packages.updateInfo`, then upload the
artifact.  `upload.uploadPackage` (upload.js is missing from the sources)
is modelled from the spec: it writes the binary and icon to the Remote
Artifact Store and resolves with the record, or rejects on storage
failure; it performs no registry write ("on upload failure, fail with
`StorageFailure` and do not persist the record", spec §4.1 step 8). -/
def updateAndUpload (pkg0 : Package) (parseData : ParseData) (sha : String)
    (bodyMaintainer : Option String) (env : Env) :
    List Event × Except Err Package :=
  if parseData.name.isNone || parseData.version.isNone || parseData.architecture.isNone then
    ([], .error (.msg MALFORMED_MANIFEST))
  else if pkg0.id.isSome && parseData.name != pkg0.id then
    ([], .error (.msg WRONG_PACKAGE))
  else if env.uploadOk then
    ([.uploadArtifact (mergedPackage pkg0 parseData sha bodyMaintainer).id],
     .ok (mergedPackage pkg0 parseData sha bodyMaintainer))
  else
    ([.uploadArtifact (mergedPackage pkg0 parseData sha bodyMaintainer).id],
     .error .storageError)

/-- `db.Package.findOne({id: ...})` — the registry lookup by id. -/
def findOne (pkgId : String) (registry : List Package) : Option Package :=
  registry.find? (fun p => p.id == some pkgId)

/-- The generic failure message of the create handler (line 369). -/
def CREATE_GENERIC : String := "There was an error creating your app, please try again later"

/-- The generic failure message of the update handler (line 412). -/
def UPDATE_GENERIC : String := "There was an error updating your app, please try again later"

/-- The catch block of `app.post` (lines 363–371): `NEEDS_MANUAL_REVIEW`,
`MALFORMED_MANIFEST` and `DUPLICATE_PACKAGE` are reported with status 400;
every other failure is logged and reported generically (no status passed,
hence the modelled default 500). -/
def postCatch (e : Err) : Response :=
  match e with
  | .msg s =>
      if s == NEEDS_MANUAL_REVIEW || s == MALFORMED_MANIFEST || s == DUPLICATE_PACKAGE then
        helpersError s 400
      else
        helpersError CREATE_GENERIC 500
  | _ => helpersError CREATE_GENERIC 500

/-- The catch block of `app.put` (lines 406–414): `PERMISSION_DENIED`,
`BAD_FILE`, `NEEDS_MANUAL_REVIEW`, `MALFORMED_MANIFEST` and `WRONG_PACKAGE`
get status 400; every other failure is reported generically (modelled
default 500). -/
def putCatch (e : Err) : Response :=
  match e with
  | .msg s =>
      if s == PERMISSION_DENIED || s == BAD_FILE || s == NEEDS_MANUAL_REVIEW
          || s == MALFORMED_MANIFEST || s == WRONG_PACKAGE then
        helpersError s 400
      else
        helpersError UPDATE_GENERIC 500
  | _ => helpersError UPDATE_GENERIC 500

/-- The maintainer defaulting of `app.post` (lines 333–335):
`if (req.body && !req.body.maintainer) req.body.maintainer = req.user._id`. -/
def effectiveMaintainer (req : Request) : Option String :=
  match req.bodyMaintainer with
  | some m => some m
  | none => some req.user._id

/-- `app.post` (lines 321–373), the create handler.  Returns the response,
the event trace and the final registry.  Without a file it fails at once;
with a wrong extension it fails and unlinks the temporary file; otherwise
the body defaults `req.body.maintainer` to the user, runs `checkPackage`,
starts the parse and (inside the `Promise.all`) the checksum, checks the
manifest fields and the duplicate id, then `updateAndUpload` and
`pkg.save()`.  A successful save appends the new record to the registry
(the registry collection is modelled from the spec as keyed storage whose
insert simply adds the record; spec §9 notes the check-then-create
sequence is not transactionally atomic in this design). -/
def appPost (req : Request) (env : Env) : Response × List Event × List Package :=
  match req.file with
  | none => (helpersError "No file upload specified" 500, [], env.registry)
  | some f =>
    if !(jsEndsWith f.originalname ".click") && !(jsEndsWith f.originalname ".snap") then
      -- line 329 passes no status; spec §6 assigns InvalidFileKind a 400
      (helpersError BAD_FILE 400, [.unlink f.path], env.registry)
    else
      match checkPackage f req.user env with
      | (ev, .error e) => (postCatch e, ev, env.registry)
      | (ev, .ok ()) =>
        let ev := ev ++ [Event.parseFile (fileName f), Event.checksumFile (fileName f)]
        match env.parseResult with
        | none => (postCatch .parseError, ev, env.registry)
        | some parseData =>
          if parseData.name.isNone || parseData.version.isNone
              || parseData.architecture.isNone then
            (postCatch (.msg MALFORMED_MANIFEST), ev, env.registry)
          else
            match parseData.name with
            | none => (postCatch (.msg MALFORMED_MANIFEST), ev, env.registry)
            | some n =>
              match findOne n env.registry with
              | some _ => (postCatch (.msg DUPLICATE_PACKAGE), ev, env.registry)
              | none =>
                match updateAndUpload Package.new parseData env.checksumVal
                    (effectiveMaintainer req) env with
                | (ev2, .error e) => (postCatch e, ev ++ ev2, env.registry)
                | (ev2, .ok pkg) =>
                    (helpersSuccess pkg, ev ++ ev2 ++ [Event.save pkg],
                     env.registry ++ [pkg])

/-- Mongoose `pkg.save()` on a record loaded from the registry: the stored
record with the same id is replaced by the updated one. -/
def replaceById (pkg : Package) (registry : List Package) : List Package :=
  registry.map (fun p => if p.id == pkg.id then pkg else p)

/-- `app.put` (lines 375–415), the update handler.  Loads the record by the
route id; when it is absent (`pkg` is `null`) the authorization test
`req.user._id == pkg.maintainer` — or, for an administrator, the later use
of the record — raises a `TypeError` caught by the generic branch; an
administrator with a file still runs `checkPackage`, the parse and the
checksum before `updateAndUpload` dereferences the null record
(`pkg.download_sha512 = ...`, line 299).  With a record present, a
principal who is neither an administrator nor the maintainer is rejected
with `PERMISSION_DENIED` before anything else runs; otherwise a file
submission runs `checkPackage`, parse, checksum, `updateAndUpload` and
`pkg.save()`, and a file-less request is a metadata-only edit that merges
and saves. -/
def appPut (req : Request) (env : Env) : Response × List Event × List Package :=
  match findOne req.paramsId env.registry with
  | none =>
    if isAdminUser req.user then
      match req.file with
      | some f =>
        match checkPackage f req.user env with
        | (ev, .error e) => (putCatch e, ev, env.registry)
        | (ev, .ok ()) =>
          let ev := ev ++ [Event.parseFile (fileName f), Event.checksumFile (fileName f)]
          match env.parseResult with
          | none => (putCatch .parseError, ev, env.registry)
          | some _ => (putCatch .typeError, ev, env.registry)
      | none => (putCatch .typeError, [], env.registry)
    else
      (putCatch .typeError, [], env.registry)
  | some pkg =>
    if isAdminUser req.user || some req.user._id == pkg.maintainer then
      match req.file with
      | some f =>
        match checkPackage f req.user env with
        | (ev, .error e) => (putCatch e, ev, env.registry)
        | (ev, .ok ()) =>
          let ev := ev ++ [Event.parseFile (fileName f), Event.checksumFile (fileName f)]
          match env.parseResult with
          | none => (putCatch .parseError, ev, env.registry)
          | some parseData =>
            match updateAndUpload pkg parseData env.checksumVal
                req.bodyMaintainer env with
            | (ev2, .error e) => (putCatch e, ev ++ ev2, env.registry)
            | (ev2, .ok pkg2) =>
                (helpersSuccess pkg2, ev ++ ev2 ++ [Event.save pkg2],
                 replaceById pkg2 env.registry)
      | none =>
        let pkg2 := updateInfo pkg none req.bodyMaintainer
        (helpersSuccess pkg2, [Event.save pkg2], replaceById pkg2 env.registry)
    else
      (putCatch (.msg PERMISSION_DENIED), [], env.registry)

/-- Scan of a trace checking that every registry `save` is strictly preceded
by a remote artifact upload; `seen` records whether an upload has already
occurred earlier in the trace. -/
def uploadStrictlyBeforeSave (seen : Bool) : List Event → Bool
  | [] => true
  | .save _ :: rest => seen && uploadStrictlyBeforeSave seen rest
  | .uploadArtifact _ :: rest => uploadStrictlyBeforeSave true rest
  | _ :: rest => uploadStrictlyBeforeSave seen rest

/-- The registry-relevant phases of one create pipeline: before its
duplicate check (`db.Package.findOne`, line 344); after the check found no
record; after its insert (`pkg.save()`, line 360); or failed with
`DUPLICATE_PACKAGE` (line 347). -/
inductive CreatePhase where
  | start
  | checked
  | succeeded
  | failedDup
  deriving Repr, DecidableEq

/-- One in-flight CreateSubmission, reduced to its manifest name and its
registry phase. -/
structure CreateThread where
  name : String
  phase : CreatePhase
  deriving Repr, DecidableEq

/-- A record as the create pipeline inserts it: a fresh `db.Package` whose
id was merged from the manifest name. -/
def pkgNamed (n : String) : Package :=
  { Package.new with id := some n }

/-- One atomic registry interaction of a create pipeline, as apps.js
performs them — the duplicate check and the insert are two separate
operations with suspension points (parse completion, checksum, artifact
upload) between them, so another submission may interleave.  The registry
collection is modelled from the spec: its insert simply adds the record,
with no store-level uniqueness constraint (spec §9 notes the
check-then-create sequence "is not transactionally atomic in the naive
design" and lists pushing uniqueness into the store as a required
strengthening). -/
def createStep (reg : List Package) (t : CreateThread) :
    List Package × CreateThread :=
  match t.phase with
  | .start =>
      match findOne t.name reg with
      | some _ => (reg, { t with phase := .failedDup })
      | none => (reg, { t with phase := .checked })
  | .checked => (reg ++ [pkgNamed t.name], { t with phase := .succeeded })
  | _ => (reg, t)

/-- Run an interleaving of two create pipelines over the shared registry:
`true` steps the first thread, `false` the second. -/
def runSchedule : List Bool → List Package × CreateThread × CreateThread →
    List Package × CreateThread × CreateThread
  | [], s => s
  | b :: rest, (reg, t1, t2) =>
      if b then
        let s := createStep reg t1
        runSchedule rest (s.1, s.2, t2)
      else
        let s := createStep reg t2
        runSchedule rest (s.1, t1, s.2)

/-- Concrete fixture: the registry record `{id: "foo", maintainer: "alice"}`. -/
def fooPkg : Package :=
  { Package.new with id := some "foo", maintainer := some "alice" }

/-- Concrete fixture: a well-formed manifest declaring `name: "foo"`. -/
def fooParse : ParseData :=
  { name := some "foo", version := some "1.0", architecture := some "armhf",
    icon := none }

/-- Concrete fixture: a plain (non-admin, non-trusted) user `bob`. -/
def bobUser : User := { _id := "bob", admin := false, trusted := false }

/-- Concrete fixture: the maintainer `alice` (non-admin, non-trusted). -/
def aliceUser : User := { _id := "alice", admin := false, trusted := false }

/-- Concrete fixture: an administrator. -/
def adminUser : User := { _id := "root", admin := true, trusted := false }

/-- Concrete fixture: an environment whose registry already holds `fooPkg`,
with a cooperative review tool, a manifest parse declaring `foo`, and a
working artifact store. -/
def envFoo : Env :=
  { registry := [fooPkg], reviewOk := true, needsReview := false,
    parseResult := some fooParse, checksumVal := "sha512digest",
    uploadOk := true }

/-- Concrete fixture: an upload named with the accepted `.click` extension. -/
def clickFile : UploadedFile := { originalname := "a.click", path := "/tmp/a" }

/-- Concrete fixture: an upload whose name ends in neither accepted
extension. -/
def tarFile : UploadedFile := { originalname := "x.tar", path := "/tmp/x" }

/-- Concrete fixture: a well-formed manifest declaring `name: "bar"`. -/
def barParse : ParseData :=
  { name := some "bar", version := some "1.0", architecture := some "armhf",
    icon := none }

/-- Concrete fixture: the record `{id: "foo"}` maintained by `bob`. -/
def bobFooPkg : Package :=
  { Package.new with id := some "foo", maintainer := some "bob" }

/-- Concrete fixture: a create request by `alice` with a `.click` file
(also used against `PUT /apps/foo`). -/
def reqCreateFoo : Request :=
  { file := some clickFile, user := aliceUser, bodyMaintainer := none,
    paramsId := "foo" }

/-- Concrete fixture: `bob` sends `PUT /apps/foo` with a `.tar` file. -/
def reqTarPut : Request :=
  { file := some tarFile, user := bobUser, bodyMaintainer := none,
    paramsId := "foo" }

/-- Concrete fixture: `alice` sends `PUT /apps/foo` with a `.tar` file. -/
def reqTarAlice : Request :=
  { file := some tarFile, user := aliceUser, bodyMaintainer := none,
    paramsId := "foo" }

/-- Concrete fixture: `bob` sends `PUT /apps/foo` with a `.click` file. -/
def reqClickPut : Request :=
  { file := some clickFile, user := bobUser, bodyMaintainer := none,
    paramsId := "foo" }

/-- Concrete fixture: the administrator sends `PUT /apps/ghost` (no record
named `ghost` exists) with a `.click` file. -/
def reqGhostPut : Request :=
  { file := some clickFile, user := adminUser, bodyMaintainer := none,
    paramsId := "ghost" }

/-- Concrete fixture: `bob` sends `PUT /apps/ghost` (no record named
`ghost` exists) with a `.click` file. -/
def reqGhostBob : Request :=
  { file := some clickFile, user := bobUser, bodyMaintainer := none,
    paramsId := "ghost" }

/-- Concrete fixture: the administrator sends `PUT /apps/ghost` (no record
named `ghost` exists) with a `.tar` file. -/
def reqTarGhost : Request :=
  { file := some tarFile, user := adminUser, bodyMaintainer := none,
    paramsId := "ghost" }

/-- Concrete fixture: environment where the review tool flags the package
for manual review, over a registry holding `bobFooPkg`. -/
def envPend : Env :=
  { envFoo with registry := [bobFooPkg], needsReview := true }

/-- Concrete fixture: environment with an empty registry and a failing
remote artifact store. -/
def envNoUpload : Env :=
  { envFoo with registry := [], uploadOk := false }

/-- Concrete fixture: environment like `envFoo` but whose manifest parse
declares `name: "bar"`. -/
def envBar : Env :=
  { envFoo with parseResult := some barParse }

theorem checkPackage_no_save (f : UploadedFile) (u : User) (env : Env) :
    ((checkPackage f u env).1.any Event.isSave) = false ∧
    ((checkPackage f u env).1.any Event.isUpload) = false := by
  unfold checkPackage
  split
  · exact ⟨rfl, rfl⟩
  · split
    · exact ⟨rfl, rfl⟩
    · split
      · exact ⟨rfl, rfl⟩
      · split
        · exact ⟨rfl, rfl⟩
        · exact ⟨rfl, rfl⟩

theorem uploadStrictlyBeforeSave_of_no_save (b : Bool) (xs : List Event)
    (h : xs.any Event.isSave = false) : uploadStrictlyBeforeSave b xs = true := by
  induction xs generalizing b with
  | nil => rfl
  | cons e rest ih =>
    rw [List.any_cons, Bool.or_eq_false_iff] at h
    cases e with
    | save pkg => exact absurd h.1 (by simp [Event.isSave])
    | uploadArtifact pid =>
        simp only [uploadStrictlyBeforeSave]
        exact ih true h.2
    | unlink p =>
        simp only [uploadStrictlyBeforeSave]
        exact ih b h.2
    | rename s d =>
        simp only [uploadStrictlyBeforeSave]
        exact ih b h.2
    | review p =>
        simp only [uploadStrictlyBeforeSave]
        exact ih b h.2
    | parseFile p =>
        simp only [uploadStrictlyBeforeSave]
        exact ih b h.2
    | checksumFile p =>
        simp only [uploadStrictlyBeforeSave]
        exact ih b h.2

theorem uploadStrictlyBeforeSave_append (b : Bool) (xs ys : List Event) :
    uploadStrictlyBeforeSave b (xs ++ ys) =
      (uploadStrictlyBeforeSave b xs &&
       uploadStrictlyBeforeSave (b || xs.any Event.isUpload) ys) := by
  induction xs generalizing b with
  | nil => simp [uploadStrictlyBeforeSave]
  | cons e rest ih =>
    cases e with
    | save pkg =>
        simp only [List.cons_append, uploadStrictlyBeforeSave, List.any_cons,
          Event.isUpload, Bool.false_or, List.append_eq, ih, Bool.and_assoc]
    | uploadArtifact pid =>
        simp only [List.cons_append, uploadStrictlyBeforeSave, List.any_cons,
          Event.isUpload, Bool.true_or, Bool.or_true, List.append_eq, ih]
    | unlink p =>
        simp only [List.cons_append, uploadStrictlyBeforeSave, List.any_cons,
          Event.isUpload, Bool.false_or, List.append_eq, ih]
    | rename s d =>
        simp only [List.cons_append, uploadStrictlyBeforeSave, List.any_cons,
          Event.isUpload, Bool.false_or, List.append_eq, ih]
    | review p =>
        simp only [List.cons_append, uploadStrictlyBeforeSave, List.any_cons,
          Event.isUpload, Bool.false_or, List.append_eq, ih]
    | parseFile p =>
        simp only [List.cons_append, uploadStrictlyBeforeSave, List.any_cons,
          Event.isUpload, Bool.false_or, List.append_eq, ih]
    | checksumFile p =>
        simp only [List.cons_append, uploadStrictlyBeforeSave, List.any_cons,
          Event.isUpload, Bool.false_or, List.append_eq, ih]

theorem updateAndUpload_ok (pkg0 : Package) (d : ParseData) (sha : String)
    (bm : Option String) (env : Env) (ev2 : List Event) (pkg : Package)
    (h : updateAndUpload pkg0 d sha bm env = (ev2, Except.ok pkg)) :
    ev2 = [Event.uploadArtifact pkg.id] ∧ env.uploadOk = true := by
  unfold updateAndUpload at h
  split at h
  · exact absurd h (by simp)
  · split at h
    · exact absurd h (by simp)
    · split at h
      · injection h with h1 h2
        injection h2 with h3
        subst h3
        subst h1
        exact ⟨rfl, by assumption⟩
      · exact absurd h (by simp)

theorem updateAndUpload_no_save (pkg0 : Package) (d : ParseData) (sha : String)
    (bm : Option String) (env : Env) :
    ((updateAndUpload pkg0 d sha bm env).1.any Event.isSave) = false ∧
    ((updateAndUpload pkg0 d sha bm env).1.any Event.isUnlink) = false := by
  unfold updateAndUpload
  split
  · exact ⟨rfl, rfl⟩
  · split
    · exact ⟨rfl, rfl⟩
    · split
      · exact ⟨rfl, rfl⟩
      · exact ⟨rfl, rfl⟩

theorem findOne_id (n : String) (reg : List Package) (p : Package)
    (h : findOne n reg = some p) : p.id = some n := by
  unfold findOne at h
  have := List.find?_some h
  simpa using this

theorem putCatch_success (e : Err) : (putCatch e).success = false := by
  cases e with
  | msg s =>
      simp only [putCatch]
      split <;> rfl
  | typeError => rfl
  | reviewToolError => rfl
  | parseError => rfl
  | storageError => rfl

theorem postCatch_success (e : Err) : (postCatch e).success = false := by
  cases e with
  | msg s =>
      simp only [postCatch]
      split <;> rfl
  | typeError => rfl
  | reviewToolError => rfl
  | parseError => rfl
  | storageError => rfl

theorem appPost_shape (req : Request) (env : Env) :
    ((appPost req env).2.1.any Event.isSave = false ∧
     (appPost req env).2.2 = env.registry) ∨
    (env.uploadOk = true ∧ ∃ ev pkg,
      (appPost req env).2.1 = ev ++ [Event.uploadArtifact pkg.id, Event.save pkg] ∧
      ev.any Event.isSave = false ∧
      (appPost req env).2.2 = env.registry ++ [pkg]) := by
  rcases hf : req.file with _ | f
  · left
    simp [appPost, hf]
  · rcases hext : (!(jsEndsWith f.originalname ".click") && !(jsEndsWith f.originalname ".snap")) with _ | _
    · -- extension accepted
      rcases hcp : checkPackage f req.user env with ⟨ev, r⟩
      have hev1 : ev.any Event.isSave = false := by
        have h2 := (checkPackage_no_save f req.user env).1
        rw [hcp] at h2
        exact h2
      rcases r with e | u
      · left
        simp [appPost, hf, hext, hcp, hev1]
      · cases u
        rcases hp : env.parseResult with _ | d
        · left
          simp [appPost, hf, hext, hcp, hp, List.any_append, hev1, Event.isSave]
        · rcases hflds : (d.name.isNone || d.version.isNone || d.architecture.isNone) with _ | _
          · rcases hn : d.name with _ | n
            · rw [hn] at hflds
              simp at hflds
            · rcases hv : d.version with _ | v
              · rw [hv] at hflds
                simp at hflds
              · rcases ha : d.architecture with _ | a
                · rw [ha] at hflds
                  simp at hflds
                · rcases hfind : findOne n env.registry with _ | p
                  · rcases huu : updateAndUpload Package.new d env.checksumVal
                        (effectiveMaintainer req) env with ⟨ev2, r2⟩
                    have hev21 : ev2.any Event.isSave = false := by
                      have h2 := (updateAndUpload_no_save Package.new d env.checksumVal
                        (effectiveMaintainer req) env).1
                      rw [huu] at h2
                      exact h2
                    rcases r2 with e2 | pkg
                    · left
                      simp [appPost, hf, hext, hcp, hp, hflds, hn, hv, ha, hfind, huu,
                        List.any_append, hev1, hev21, Event.isSave]
                    · right
                      obtain ⟨hev2eq, hok⟩ := updateAndUpload_ok _ _ _ _ _ _ _ huu
                      refine ⟨hok, ev ++ [Event.parseFile (fileName f), Event.checksumFile (fileName f)], pkg, ?_, ?_, ?_⟩
                      · simp [appPost, hf, hext, hcp, hp, hflds, hn, hv, ha, hfind, huu, hev2eq]
                      · simp [List.any_append, hev1, Event.isSave]
                      · simp [appPost, hf, hext, hcp, hp, hflds, hn, hv, ha, hfind, huu]
                  · left
                    simp [appPost, hf, hext, hcp, hp, hflds, hn, hv, ha, hfind,
                      List.any_append, hev1, Event.isSave]
          · left
            simp [appPost, hf, hext, hcp, hp, hflds, List.any_append, hev1, Event.isSave]
    · -- extension rejected
      left
      simp [appPost, hf, hext, Event.isSave]

theorem appPut_shape (req : Request) (env : Env) :
    ((appPut req env).2.1.any Event.isSave = false ∧
     (appPut req env).2.2 = env.registry) ∨
    (env.uploadOk = true ∧ ∃ ev pkg,
      (appPut req env).2.1 = ev ++ [Event.uploadArtifact pkg.id, Event.save pkg] ∧
      ev.any Event.isSave = false ∧
      (appPut req env).2.2 = replaceById pkg env.registry) ∨
    (req.file = none ∧ ∃ pkg,
      (appPut req env).2.1 = [Event.save pkg] ∧
      (appPut req env).2.2 = replaceById pkg env.registry) := by
  rcases hfind : findOne req.paramsId env.registry with _ | pkg
  · rcases hadm : isAdminUser req.user with _ | _
    · left
      simp [appPut, hfind, hadm]
    · rcases hf : req.file with _ | f
      · left
        simp [appPut, hfind, hadm, hf]
      · rcases hcp : checkPackage f req.user env with ⟨ev, r⟩
        have hev1 : ev.any Event.isSave = false := by
          have h2 := (checkPackage_no_save f req.user env).1
          rw [hcp] at h2
          exact h2
        rcases r with e | u
        · left
          simp [appPut, hfind, hadm, hf, hcp, hev1]
        · cases u
          rcases hp : env.parseResult with _ | d
          · left
            simp [appPut, hfind, hadm, hf, hcp, hp, List.any_append, hev1, Event.isSave]
          · left
            simp [appPut, hfind, hadm, hf, hcp, hp, List.any_append, hev1, Event.isSave]
  · rcases hauth : (isAdminUser req.user || some req.user._id == pkg.maintainer) with _ | _
    · left
      simp [appPut, hfind, hauth]
    · rcases hf : req.file with _ | f
      · right; right
        refine ⟨rfl, updateInfo pkg none req.bodyMaintainer, ?_, ?_⟩
        · simp [appPut, hfind, hauth, hf]
        · simp [appPut, hfind, hauth, hf]
      · rcases hcp : checkPackage f req.user env with ⟨ev, r⟩
        have hev1 : ev.any Event.isSave = false := by
          have h2 := (checkPackage_no_save f req.user env).1
          rw [hcp] at h2
          exact h2
        rcases r with e | u
        · left
          simp [appPut, hfind, hauth, hf, hcp, hev1]
        · cases u
          rcases hp : env.parseResult with _ | d
          · left
            simp [appPut, hfind, hauth, hf, hcp, hp, List.any_append, hev1, Event.isSave]
          · rcases huu : updateAndUpload pkg d env.checksumVal req.bodyMaintainer env with ⟨ev2, r2⟩
            have hev21 : ev2.any Event.isSave = false := by
              have h2 := (updateAndUpload_no_save pkg d env.checksumVal req.bodyMaintainer env).1
              rw [huu] at h2
              exact h2
            rcases r2 with e2 | pkg2
            · left
              simp [appPut, hfind, hauth, hf, hcp, hp, huu, List.any_append,
                hev1, hev21, Event.isSave]
            · right; left
              obtain ⟨hev2eq, hok⟩ := updateAndUpload_ok _ _ _ _ _ _ _ huu
              refine ⟨hok, ev ++ [Event.parseFile (fileName f), Event.checksumFile (fileName f)], pkg2, ?_, ?_, ?_⟩
              · simp [appPut, hfind, hauth, hf, hcp, hp, huu, hev2eq]
              · simp [List.any_append, hev1, Event.isSave]
              · simp [appPut, hfind, hauth, hf, hcp, hp, huu]

/-- C1: a create submission whose parsed manifest name equals the id of an
existing record fails with DuplicatePackage, with no registry write and no
artifact upload. -/
theorem c1_duplicate_create_rejected (req : Request) (env : Env)
    (f : UploadedFile) (ev : List Event) (d : ParseData)
    (n v a : String) (p : Package)
    (hf : req.file = some f)
    (hext : (!(jsEndsWith f.originalname ".click") && !(jsEndsWith f.originalname ".snap")) = false)
    (hchk : checkPackage f req.user env = (ev, Except.ok ()))
    (hparse : env.parseResult = some d)
    (hname : d.name = some n)
    (hvers : d.version = some v)
    (harch : d.architecture = some a)
    (hdup : findOne n env.registry = some p) :
    (appPost req env).1 = helpersError DUPLICATE_PACKAGE 400 ∧
    (appPost req env).2.1.any Event.isSave = false ∧
    (appPost req env).2.1.any Event.isUpload = false ∧
    (appPost req env).2.2 = env.registry := by
  have hev1 : ev.any Event.isSave = false := by
    have h2 := (checkPackage_no_save f req.user env).1
    rw [hchk] at h2
    exact h2
  have hev2 : ev.any Event.isUpload = false := by
    have h2 := (checkPackage_no_save f req.user env).2
    rw [hchk] at h2
    exact h2
  have hpc : postCatch (.msg DUPLICATE_PACKAGE) = helpersError DUPLICATE_PACKAGE 400 := by
    decide
  simp [appPost, hf, hext, hchk, hparse, hname, hvers, harch, hdup, hpc,
    List.any_append, hev1, hev2, Event.isSave, Event.isUpload]

/-- Witness for C1: the concrete duplicate create `reqCreateFoo` against `envFoo`. -/
theorem c1_witness :
    (appPost reqCreateFoo envFoo).1 = helpersError DUPLICATE_PACKAGE 400 ∧
    (appPost reqCreateFoo envFoo).2.1.any Event.isSave = false ∧
    (appPost reqCreateFoo envFoo).2.1.any Event.isUpload = false ∧
    (appPost reqCreateFoo envFoo).2.2 = envFoo.registry :=
  c1_duplicate_create_rejected reqCreateFoo envFoo clickFile
    [Event.rename "/tmp/a" "/tmp/a.click", Event.review "/tmp/a.click"]
    fooParse "foo" "1.0" "armhf" fooPkg
    rfl (by decide) rfl rfl rfl rfl rfl (by decide)

/-- C4: a submission by a non-admin, non-trusted principal that the review
tool flags fails with the manual-review message as a 400 response; the
uploaded (renamed) file is not deleted and no record is created or
updated.  The update half holds whenever the record exists and the
principal is authorized (the stages before the review gate). -/
theorem c4_pending_review (req : Request) (env : Env) (f : UploadedFile)
    (hf : req.file = some f)
    (hext : (!(jsEndsWith f.originalname ".click") && !(jsEndsWith f.originalname ".snap")) = false)
    (hadm : isAdminOrTrustedUser req.user = false)
    (hrev : env.reviewOk = true)
    (hneed : env.needsReview = true) :
    ((appPost req env).1 = helpersError NEEDS_MANUAL_REVIEW 400 ∧
     (appPost req env).2.1.any Event.isUnlink = false ∧
     (appPost req env).2.1.any Event.isSave = false ∧
     (appPost req env).2.2 = env.registry) ∧
    (∀ pkg, findOne req.paramsId env.registry = some pkg →
      (isAdminUser req.user || some req.user._id == pkg.maintainer) = true →
      (appPut req env).1 = helpersError NEEDS_MANUAL_REVIEW 400 ∧
      (appPut req env).2.1.any Event.isUnlink = false ∧
      (appPut req env).2.1.any Event.isSave = false ∧
      (appPut req env).2.2 = env.registry) := by
  have hcp : checkPackage f req.user env =
      ([Event.rename f.path (fileName f), Event.review (fileName f)],
       Except.error (.msg NEEDS_MANUAL_REVIEW)) := by
    simp [checkPackage, hext, hadm, hrev, hneed]
  have hpc : postCatch (.msg NEEDS_MANUAL_REVIEW) = helpersError NEEDS_MANUAL_REVIEW 400 := by
    decide
  have hpc2 : putCatch (.msg NEEDS_MANUAL_REVIEW) = helpersError NEEDS_MANUAL_REVIEW 400 := by
    decide
  constructor
  · simp [appPost, hf, hext, hcp, hpc, Event.isUnlink, Event.isSave]
  · intro pkg hfind hauth
    simp [appPut, hfind, hauth, hf, hcp, hpc2, Event.isUnlink, Event.isSave]

/-- Witness for C4: `bob` submits `clickFile` under a flagging review tool. -/
theorem c4_witness :
    ((appPost reqClickPut envPend).1 = helpersError NEEDS_MANUAL_REVIEW 400 ∧
     (appPost reqClickPut envPend).2.1.any Event.isUnlink = false ∧
     (appPost reqClickPut envPend).2.1.any Event.isSave = false ∧
     (appPost reqClickPut envPend).2.2 = envPend.registry) ∧
    ((appPut reqClickPut envPend).1 = helpersError NEEDS_MANUAL_REVIEW 400 ∧
     (appPut reqClickPut envPend).2.1.any Event.isUnlink = false ∧
     (appPut reqClickPut envPend).2.1.any Event.isSave = false ∧
     (appPut reqClickPut envPend).2.2 = envPend.registry) := by
  obtain ⟨hpost, hput⟩ :=
    c4_pending_review reqClickPut envPend clickFile rfl (by decide) (by decide) rfl rfl
  exact ⟨hpost, hput bobFooPkg rfl (by decide)⟩

/-- Counterexample to C5 as stated: `bob` (not the maintainer) sends
`PUT /apps/foo` with the non-click, non-snap `tarFile`; the rejection is
PermissionDenied, not the bad-file error, and the effect trace is empty —
the temporary file is not deleted. -/
theorem c5_counterexample :
    jsEndsWith tarFile.originalname ".click" = false ∧
    jsEndsWith tarFile.originalname ".snap" = false ∧
    (appPut reqTarPut envFoo).1.message = some PERMISSION_DENIED ∧
    (appPut reqTarPut envFoo).1.message ≠ some BAD_FILE ∧
    (appPut reqTarPut envFoo).2.1 = [] := by decide

/-- C5 (amended): a create request with a file ending in neither accepted
extension fails with the bad-file message as a 400 response and the
temporary file is unlinked; an update fails the same way — 400 with the
file unlinked — whenever the run reaches the extension check: for an
authorized principal on an existing record, and likewise for an
administrator even when the record is absent.  An unauthorized update on
an existing record is instead rejected with PermissionDenied before the
extension check, retaining the file (`c5_counterexample`). -/
theorem c5_invalid_file_kind_amended (req : Request) (env : Env) (f : UploadedFile)
    (hf : req.file = some f)
    (hbad : (!(jsEndsWith f.originalname ".click") && !(jsEndsWith f.originalname ".snap")) = true) :
    appPost req env = (helpersError BAD_FILE 400, [Event.unlink f.path], env.registry) ∧
    (∀ pkg, findOne req.paramsId env.registry = some pkg →
      (isAdminUser req.user || some req.user._id == pkg.maintainer) = true →
      appPut req env = (helpersError BAD_FILE 400, [Event.unlink f.path], env.registry)) ∧
    (findOne req.paramsId env.registry = none →
      isAdminUser req.user = true →
      appPut req env = (helpersError BAD_FILE 400, [Event.unlink f.path], env.registry)) := by
  have hcp : checkPackage f req.user env =
      ([Event.unlink f.path], Except.error (.msg BAD_FILE)) := by
    simp [checkPackage, hbad]
  have hpc : putCatch (.msg BAD_FILE) = helpersError BAD_FILE 400 := by decide
  refine ⟨?_, ?_, ?_⟩
  · simp [appPost, hf, hbad]
  · intro pkg hfind hauth
    simp [appPut, hfind, hauth, hf, hcp, hpc]
  · intro hfind hadm
    simp [appPut, hfind, hadm, hf, hcp, hpc]

/-- Witness for C5 (amended): `alice` sends `tarFile` to both handlers
against the registry holding her record, and the administrator sends
`tarFile` to the absent id `ghost`. -/
theorem c5_witness :
    appPost reqTarAlice envFoo =
      (helpersError BAD_FILE 400, [Event.unlink "/tmp/x"], envFoo.registry) ∧
    appPut reqTarAlice envFoo =
      (helpersError BAD_FILE 400, [Event.unlink "/tmp/x"], envFoo.registry) ∧
    appPut reqTarGhost envFoo =
      (helpersError BAD_FILE 400, [Event.unlink "/tmp/x"], envFoo.registry) := by
  obtain ⟨hpost, hput, _⟩ :=
    c5_invalid_file_kind_amended reqTarAlice envFoo tarFile rfl (by decide)
  obtain ⟨_, _, hghost⟩ :=
    c5_invalid_file_kind_amended reqTarGhost envFoo tarFile rfl (by decide)
  exact ⟨hpost, hput fooPkg rfl (by decide), hghost rfl rfl⟩

/-- C6: an update whose attached file's parsed manifest name differs from
the record's id fails with the wrong-package message as a 400 response;
no upload, no save, and the registry is unchanged. -/
theorem c6_package_mismatch (req : Request) (env : Env) (f : UploadedFile)
    (ev : List Event) (d : ParseData) (n v a : String) (pkg : Package)
    (hf : req.file = some f)
    (hfind : findOne req.paramsId env.registry = some pkg)
    (hauth : (isAdminUser req.user || some req.user._id == pkg.maintainer) = true)
    (hchk : checkPackage f req.user env = (ev, Except.ok ()))
    (hparse : env.parseResult = some d)
    (hname : d.name = some n)
    (hvers : d.version = some v)
    (harch : d.architecture = some a)
    (hmm : n ≠ req.paramsId) :
    (appPut req env).1 = helpersError WRONG_PACKAGE 400 ∧
    (appPut req env).2.1.any Event.isUpload = false ∧
    (appPut req env).2.1.any Event.isSave = false ∧
    (appPut req env).2.2 = env.registry := by
  have hev1 : ev.any Event.isSave = false := by
    have h2 := (checkPackage_no_save f req.user env).1
    rw [hchk] at h2
    exact h2
  have hev2 : ev.any Event.isUpload = false := by
    have h2 := (checkPackage_no_save f req.user env).2
    rw [hchk] at h2
    exact h2
  have hpid : pkg.id = some req.paramsId := findOne_id _ _ _ hfind
  have huu : updateAndUpload pkg d env.checksumVal req.bodyMaintainer env =
      ([], Except.error (.msg WRONG_PACKAGE)) := by
    simp [updateAndUpload, hname, hvers, harch, hpid, hmm]
  have hpc : putCatch (.msg WRONG_PACKAGE) = helpersError WRONG_PACKAGE 400 := by decide
  simp [appPut, hfind, hauth, hf, hchk, hparse, huu, hpc,
    List.any_append, hev1, hev2, Event.isSave, Event.isUpload]

/-- Witness for C6: `alice` updates `foo` with a manifest declaring `bar`. -/
theorem c6_witness :
    (appPut reqCreateFoo envBar).1 = helpersError WRONG_PACKAGE 400 ∧
    (appPut reqCreateFoo envBar).2.1.any Event.isUpload = false ∧
    (appPut reqCreateFoo envBar).2.1.any Event.isSave = false ∧
    (appPut reqCreateFoo envBar).2.2 = envBar.registry :=
  c6_package_mismatch reqCreateFoo envBar clickFile
    [Event.rename "/tmp/a" "/tmp/a.click", Event.review "/tmp/a.click"]
    barParse "bar" "1.0" "armhf" fooPkg
    rfl (by decide) (by decide) rfl rfl rfl rfl rfl (by decide)

/-- C7: an update by a principal who is neither an administrator nor the
record's maintainer fails with the permission message as a 400 response,
with an empty effect trace — no extension check, rename, review, parse,
checksum, upload or persist happens — and the registry unchanged. -/
theorem c7_permission_denied (req : Request) (env : Env) (pkg : Package)
    (hfind : findOne req.paramsId env.registry = some pkg)
    (hadm : isAdminUser req.user = false)
    (hmaint : some req.user._id ≠ pkg.maintainer) :
    appPut req env = (helpersError PERMISSION_DENIED 400, [], env.registry) := by
  have hauth : (isAdminUser req.user || some req.user._id == pkg.maintainer) = false := by
    simp [hadm, hmaint]
  have hpc : putCatch (.msg PERMISSION_DENIED) = helpersError PERMISSION_DENIED 400 := by
    decide
  simp [appPut, hfind, hauth, hpc]

/-- Witness for C7: `bob` updates `foo`, which `alice` maintains. -/
theorem c7_witness :
    appPut reqClickPut envFoo =
      (helpersError PERMISSION_DENIED 400, [], envFoo.registry) :=
  c7_permission_denied reqClickPut envFoo fooPkg rfl rfl (by decide)

/-- C10: a create request carrying no uploaded file fails immediately with
the no-file message; the effect trace is empty (no review, parse,
checksum, storage or registry operation) and the registry is unchanged. -/
theorem c10_no_file (req : Request) (env : Env) (hf : req.file = none) :
    appPost req env = (helpersError "No file upload specified" 500, [], env.registry) := by
  simp [appPost, hf]

/-- Witness for C10: a create request with no file. -/
theorem c10_witness :
    appPost { file := none, user := bobUser, bodyMaintainer := none, paramsId := "foo" }
        envFoo =
      (helpersError "No file upload specified" 500, [], envFoo.registry) :=
  c10_no_file _ envFoo rfl

/-- C2: in every create or update run with a file, every registry persist
in the effect trace is strictly preceded by a remote artifact upload, and
when the upload fails no persist happens and the registry is unchanged. -/
theorem c2_upload_before_persist (req : Request) (env : Env) (f : UploadedFile)
    (hf : req.file = some f) :
    uploadStrictlyBeforeSave false (appPost req env).2.1 = true ∧
    uploadStrictlyBeforeSave false (appPut req env).2.1 = true ∧
    (env.uploadOk = false →
      (appPost req env).2.1.any Event.isSave = false ∧
      (appPost req env).2.2 = env.registry ∧
      (appPut req env).2.1.any Event.isSave = false ∧
      (appPut req env).2.2 = env.registry) := by
  refine ⟨?_, ?_, ?_⟩
  · rcases appPost_shape req env with ⟨hns, _⟩ | ⟨_, ev, pkg, htr, hevns, _⟩
    · exact uploadStrictlyBeforeSave_of_no_save false _ hns
    · rw [htr, uploadStrictlyBeforeSave_append,
        uploadStrictlyBeforeSave_of_no_save false ev hevns]
      simp [uploadStrictlyBeforeSave]
  · rcases appPut_shape req env with ⟨hns, _⟩ | ⟨_, ev, pkg, htr, hevns, _⟩ | ⟨hnone, _⟩
    · exact uploadStrictlyBeforeSave_of_no_save false _ hns
    · rw [htr, uploadStrictlyBeforeSave_append,
        uploadStrictlyBeforeSave_of_no_save false ev hevns]
      simp [uploadStrictlyBeforeSave]
    · rw [hf] at hnone
      exact absurd hnone (by simp)
  · intro hup
    have hpost : (appPost req env).2.1.any Event.isSave = false ∧
        (appPost req env).2.2 = env.registry := by
      rcases appPost_shape req env with h | ⟨hok, _⟩
      · exact h
      · rw [hup] at hok
        exact absurd hok (by simp)
    have hput : (appPut req env).2.1.any Event.isSave = false ∧
        (appPut req env).2.2 = env.registry := by
      rcases appPut_shape req env with h | ⟨hok, _⟩ | ⟨hnone, _⟩
      · exact h
      · rw [hup] at hok
        exact absurd hok (by simp)
      · rw [hf] at hnone
        exact absurd hnone (by simp)
    exact ⟨hpost.1, hpost.2, hput.1, hput.2⟩

/-- Witness for C2: a create and an update against a failing artifact
store never persist. -/
theorem c2_witness :
    uploadStrictlyBeforeSave false (appPost reqCreateFoo envNoUpload).2.1 = true ∧
    (appPost reqCreateFoo envNoUpload).2.1.any Event.isSave = false ∧
    (appPost reqCreateFoo envNoUpload).2.2 = envNoUpload.registry ∧
    (appPut reqCreateFoo envNoUpload).2.1.any Event.isSave = false := by
  obtain ⟨h1, h2, h3⟩ :=
    c2_upload_before_persist reqCreateFoo envNoUpload clickFile rfl
  obtain ⟨h4, h5, h6, h7⟩ := h3 rfl
  exact ⟨h1, h4, h5, h6⟩

/-- C3: the duplicate check (findOne, line 344) and the insert (save,
line 360) are separate registry operations; in the interleaving where both
create pipelines run their check before either inserts, both succeed and
the registry ends with two records named "foo" — the claimed atomic
check-and-insert does not hold.  Sequentially, the second create is
rejected with DuplicatePackage (second conjunct), so the failure is
specific to the concurrent interleaving. -/
theorem c3_concurrent_create_race :
    runSchedule [true, false, true, false]
        ([], { name := "foo", phase := .start }, { name := "foo", phase := .start }) =
      ([pkgNamed "foo", pkgNamed "foo"],
       { name := "foo", phase := .succeeded }, { name := "foo", phase := .succeeded }) ∧
    (appPost reqCreateFoo { envFoo with registry := [pkgNamed "foo"] }).1 =
      helpersError DUPLICATE_PACKAGE 400 := by decide

/-- Counterexample to C8 as stated: the unauthorized-update path with a
`.click` file attached rejects with PermissionDenied and an empty effect
trace — the temporary upload file is not deleted on this pre-review
rejection path. -/
theorem c8_counterexample :
    (appPut reqClickPut envFoo).1.success = false ∧
    (appPut reqClickPut envFoo).1.message = some PERMISSION_DENIED ∧
    (appPut reqClickPut envFoo).2.1 = [] := by decide

/-- C8 (amended): the temporary upload file is deleted on the
invalid-extension rejection of a create, and of an update that reaches the
extension check (record exists, principal authorized); the unauthorized
update with a file attached is rejected before any file handling and
retains the file (`c8_counterexample`); a pending-review rejection
deliberately retains the (renamed) file. -/
theorem c8_cleanup_amended (req : Request) (env : Env) (f : UploadedFile)
    (hf : req.file = some f) :
    ((!(jsEndsWith f.originalname ".click") && !(jsEndsWith f.originalname ".snap")) = true →
      (appPost req env).2.1 = [Event.unlink f.path] ∧
      (∀ pkg, findOne req.paramsId env.registry = some pkg →
        (isAdminUser req.user || some req.user._id == pkg.maintainer) = true →
        (appPut req env).2.1 = [Event.unlink f.path])) ∧
    (∀ pkg, findOne req.paramsId env.registry = some pkg →
      (isAdminUser req.user || some req.user._id == pkg.maintainer) = false →
      (appPut req env).2.1 = []) ∧
    ((!(jsEndsWith f.originalname ".click") && !(jsEndsWith f.originalname ".snap")) = false →
      isAdminOrTrustedUser req.user = false →
      env.reviewOk = true → env.needsReview = true →
      (appPost req env).1 = helpersError NEEDS_MANUAL_REVIEW 400 ∧
      (appPost req env).2.1.any Event.isUnlink = false) := by
  refine ⟨?_, ?_, ?_⟩
  · intro hbad
    have hcp : checkPackage f req.user env =
        ([Event.unlink f.path], Except.error (.msg BAD_FILE)) := by
      simp [checkPackage, hbad]
    constructor
    · simp [appPost, hf, hbad]
    · intro pkg hfind hauth
      simp [appPut, hfind, hauth, hf, hcp]
  · intro pkg hfind hauth
    simp [appPut, hfind, hauth]
  · intro hext hadm hrev hneed
    have hcp : checkPackage f req.user env =
        ([Event.rename f.path (fileName f), Event.review (fileName f)],
         Except.error (.msg NEEDS_MANUAL_REVIEW)) := by
      simp [checkPackage, hext, hadm, hrev, hneed]
    have hpc : postCatch (.msg NEEDS_MANUAL_REVIEW) =
        helpersError NEEDS_MANUAL_REVIEW 400 := by decide
    constructor
    · simp [appPost, hf, hext, hcp, hpc]
    · simp [appPost, hf, hext, hcp, Event.isUnlink]

/-- Witness for C8 (amended): deletion on the bad-extension paths,
retention on the unauthorized-update and pending-review paths. -/
theorem c8_witness :
    (appPost reqTarAlice envFoo).2.1 = [Event.unlink "/tmp/x"] ∧
    (appPut reqClickPut envFoo).2.1 = [] ∧
    (appPost reqClickPut envPend).2.1.any Event.isUnlink = false := by
  refine ⟨?_, ?_, ?_⟩
  · exact ((c8_cleanup_amended reqTarAlice envFoo tarFile rfl).1 (by decide)).1
  · exact (c8_cleanup_amended reqClickPut envFoo clickFile rfl).2.1 fooPkg rfl (by decide)
  · exact ((c8_cleanup_amended reqClickPut envPend clickFile rfl).2.2 (by decide)
      (by decide) rfl rfl).2

/-- Counterexample to C9 as stated: the administrator updates the absent
id `ghost` with a file; the file is processed — renamed, parsed and
checksummed (the review is skipped for administrators, line 282) — before
the run fails generically, not the claimed failure prior to all file
processing. -/
theorem c9_counterexample :
    findOne reqGhostPut.paramsId envFoo.registry = none ∧
    (appPut reqGhostPut envFoo).2.1 =
      [Event.rename "/tmp/a" "/tmp/a.click",
       Event.parseFile "/tmp/a.click", Event.checksumFile "/tmp/a.click"] ∧
    (appPut reqGhostPut envFoo).1 = helpersError UPDATE_GENERIC 500 := by decide

/-- C9 (amended): an update whose route id matches no record always fails
(the code has no NotFound kind here: the null record raises a TypeError
caught by the generic branch), never saves, and leaves the registry
unchanged; for a non-admin principal the rejection happens before any file
handling, with an empty effect trace and the generic update failure.  (An
administrator's request with a valid-extension file is instead renamed,
parsed and checksummed first, review being skipped for administrators —
`c9_counterexample`.) -/
theorem c9_missing_record_amended (req : Request) (env : Env)
    (hfind : findOne req.paramsId env.registry = none) :
    (appPut req env).1.success = false ∧
    (appPut req env).2.1.any Event.isSave = false ∧
    (appPut req env).2.2 = env.registry ∧
    (isAdminUser req.user = false →
      appPut req env = (helpersError UPDATE_GENERIC 500, [], env.registry)) := by
  have hpcT : putCatch Err.typeError = helpersError UPDATE_GENERIC 500 := by decide
  rcases hadm : isAdminUser req.user with _ | _
  · have heq : appPut req env = (putCatch .typeError, [], env.registry) := by
      simp [appPut, hfind, hadm]
    rw [heq, hpcT]
    exact ⟨rfl, rfl, rfl, fun _ => rfl⟩
  · rcases hff : req.file with _ | f
    · have heq : appPut req env = (putCatch .typeError, [], env.registry) := by
        simp [appPut, hfind, hadm, hff]
      rw [heq]
      exact ⟨putCatch_success _, rfl, rfl, fun hcon => by simp [hadm] at hcon⟩
    · rcases hcp : checkPackage f req.user env with ⟨ev, r⟩
      have hev1 : ev.any Event.isSave = false := by
        have h2 := (checkPackage_no_save f req.user env).1
        rw [hcp] at h2
        exact h2
      rcases r with e | u
      · have heq : appPut req env = (putCatch e, ev, env.registry) := by
          simp [appPut, hfind, hadm, hff, hcp]
        rw [heq]
        exact ⟨putCatch_success _, hev1, rfl, fun hcon => by simp [hadm] at hcon⟩
      · cases u
        rcases hp : env.parseResult with _ | d
        · have heq : appPut req env = (putCatch .parseError,
              ev ++ [Event.parseFile (fileName f), Event.checksumFile (fileName f)],
              env.registry) := by
            simp [appPut, hfind, hadm, hff, hcp, hp]
          rw [heq]
          refine ⟨putCatch_success _, ?_, rfl, fun hcon => by simp [hadm] at hcon⟩
          simp [List.any_append, hev1, Event.isSave]
        · have heq : appPut req env = (putCatch .typeError,
              ev ++ [Event.parseFile (fileName f), Event.checksumFile (fileName f)],
              env.registry) := by
            simp [appPut, hfind, hadm, hff, hcp, hp]
          rw [heq]
          refine ⟨putCatch_success _, ?_, rfl, fun hcon => by simp [hadm] at hcon⟩
          simp [List.any_append, hev1, Event.isSave]

/-- Witness for C9 (amended): `bob` updates the absent id `ghost`. -/
theorem c9_witness :
    (appPut reqGhostBob envFoo).1.success = false ∧
    (appPut reqGhostBob envFoo).2.1.any Event.isSave = false ∧
    (appPut reqGhostBob envFoo).2.2 = envFoo.registry ∧
    appPut reqGhostBob envFoo =
      (helpersError UPDATE_GENERIC 500, [], envFoo.registry) := by
  obtain ⟨h1, h2, h3, h4⟩ := c9_missing_record_amended reqGhostBob envFoo rfl
  exact ⟨h1, h2, h3, h4 rfl⟩

end OpenAppStore
